import Mathlib

set_option maxRecDepth 8192

/-!
Shallow embedding of the tg_keta repository core pipeline, and proofs about it.

Each definition is translated from the Python source; the file/function it
embeds is named in its doc comment.  Python strings are modelled as Lean
`String`s (Python `len`/slicing act on code points, as do `String.length` and
`List.take` on `String.data`).  Python whitespace (for `str.strip` and the
regex class `\s`) is modelled by the ASCII whitespace characters; all concrete
inputs used below are ASCII, where the two notions agree.
-/

namespace TgKeta

/-- The ASCII characters matched by Python's `str.strip()` / regex `\s`. -/
def isPySpace (c : Char) : Bool :=
  c = ' ' || c = '\t' || c = '\n' || c = '\r' || c = '\x0b' || c = '\x0c'

/-- Python `str.strip()` on a character list: drop whitespace from both ends. -/
def pyStrip (l : List Char) : List Char :=
  ((l.dropWhile isPySpace).reverse.dropWhile isPySpace).reverse

/-- Python `s.strip()` on strings. -/
def pyStripS (s : String) : String := String.mk (pyStrip s.data)

/-- Python `s[:n]` for `n ≥ 0`: the first `n` code points. -/
def pySlice (s : String) (n : Nat) : String := String.mk (s.data.take n)

/-- Python `s.startswith("\x7b")`: a single-character prefix test on the
first code point. -/
def startsWithLBrace (s : String) : Bool :=
  match s.data with
  | c :: _ => c == '\x7b'
  | [] => false

/-! ## src/engine/fsm.py -/

/-- `VALID_TRANSITIONS` from src/engine/fsm.py lines 31-37:
`{from_state: {allowed_next_states}}`. -/
def VALID_TRANSITIONS : List (String × List String) :=
  [ ("idle", ["onboarding", "recipe_search", "consultation", "coaching"]),
    ("onboarding", ["idle", "recipe_search", "consultation"]),
    ("recipe_search", ["idle", "consultation", "coaching", "recipe_search"]),
    ("consultation", ["idle", "recipe_search", "coaching", "consultation"]),
    ("coaching", ["idle", "recipe_search", "consultation", "coaching"]) ]

/-- `is_valid_transition` from src/engine/fsm.py lines 40-45.  Identity is
always valid, otherwise the target must be in the allow-list of the current
mode (`dict.get(current, set())` membership). -/
def is_valid_transition (current_mode next_mode : String) : Bool :=
  if current_mode = next_mode then
    true
  else
    match VALID_TRANSITIONS.lookup current_mode with
    | some allowed => allowed.contains next_mode
    | none => false

/-- `determine_initial_mode` from src/engine/fsm.py lines 48-52. -/
def determine_initial_mode (profile_complete : Bool) : String :=
  if !profile_complete then "onboarding" else "idle"

/-- One entry of the `last_messages` ring buffer
(`{"role": ..., "content": ..., "ts": ...}` dicts built in fsm.py). -/
structure HistMsg where
  role : String
  content : String
  ts : String
deriving DecidableEq, Repr

/-- `update_last_messages` from src/engine/fsm.py lines 60-88.  The two
`datetime.utcnow().isoformat()` calls are modelled by the parameters `ts1`,
`ts2`.  Python `messages[-max:]` is `messages` itself when `max = 0` and
otherwise drops all but the last `max` entries. -/
def update_last_messages (state_last_messages : List HistMsg)
    (user_message assistant_reply : String) (ts1 ts2 : String)
    (max_messages : Nat := 10) : List HistMsg :=
  let messages := state_last_messages ++
    [ ⟨"user", user_message, ts1⟩,
      ⟨"assistant", pySlice assistant_reply 500, ts2⟩ ]
  if messages.length > max_messages then
    if max_messages = 0 then messages
    else messages.drop (messages.length - max_messages)
  else
    messages

/-! ## The LLM output contract (src/models.py lines 106-176)

Pydantic models of the allow-listed LLM output.  Numeric fields typed `float`
in the source are modelled as `Rat`; no claim depends on their arithmetic.
`Literal`-typed fields are modelled as `Option String` (validation restricts
their values; none of the claims depends on that restriction). -/

/-- `SafetyFlags` from src/models.py lines 156-160. -/
structure SafetyFlags where
  medical_concern : Bool := false
  off_topic : Bool := false
  red_flag_type : Option String := none
deriving DecidableEq, Repr

/-- `StatePatch` from src/models.py lines 141-144. -/
structure StatePatch where
  mode : Option String := none
  step : Option String := none
deriving DecidableEq, Repr

/-- `ProfilePatch` from src/models.py lines 129-138. -/
structure ProfilePatch where
  taste_preferences : Option (List String) := none
  diabetes_type : Option String := none
  lactose_intolerant : Option Bool := none
  allergies_detail : Option (List (List (String × String))) := none
  dietary_restrictions : Option (List String) := none
  weight_kg : Option Rat := none
  target_weight_kg : Option Rat := none
  bot_onboarding_completed : Option Bool := none
deriving DecidableEq, Repr

/-- `RecipeQuery` from src/models.py lines 147-153. -/
structure RecipeQuery where
  category : Option String := none
  exclude_ingredients : List String := []
  taste : Option String := none
  max_cooking_time : Option Nat := none
  limit : Nat := 5
deriving DecidableEq, Repr

/-- `Actions` from src/models.py lines 172-176. -/
structure Actions where
  profile_patch : Option ProfilePatch := none
  state_patch : Option StatePatch := none
  recipe_query : Option RecipeQuery := none
  safety_flags : Option SafetyFlags := none
deriving DecidableEq, Repr

/-- `ActionsJson` from src/models.py lines 163-169.  The pydantic field
constraint `reply_text: Field(..., min_length=1, max_length=4000)` is a
property of successful validation; it appears as a hypothesis on the
abstract validator where needed. -/
structure ActionsJson where
  reply_text : String
  actions : Option Actions := none
deriving DecidableEq, Repr

/-! ## src/llm/actions_parser.py

The two regexes are modelled by executable searches with Python `re.search`
semantics (leftmost match; greedy pieces maximal, the lazy group minimal):

* `_JSON_FENCE_RE = r"(three backticks)(?:json)?\s*\n?(.*?)\n?(three backticks)"`
  with `re.DOTALL`.  After the greedy `\s*` has consumed a maximal whitespace
  run, the `\n?` necessarily matches empty (the next character is not
  whitespace), and the lazy group ends at the first later occurrence of the
  closing fence, giving up one directly preceding newline to the second
  `\n?` (which is tried with `\n` first).  Backtracking the greedy pieces
  cannot produce a match when this fails, because every position they would
  re-expose holds a whitespace or `json` character, which cannot start a
  fence; likewise declining the `(?:json)?` branch cannot succeed when
  taking it failed.
* `_JSON_OBJECT_RE = r"\{.*\}"` with `re.DOTALL`: leftmost `{` that has some
  `}` after it, extending greedily to the last `}` of the text. -/

/-- The backtick character (code 96). -/
def backquote : Char := Char.ofNat 96

/-- The opening/closing fence of `_JSON_FENCE_RE`. -/
def fenceMark : List Char := [backquote, backquote, backquote]

/-- The optional `json` tag after the opening fence. -/
def jsonMark : List Char := ['j', 's', 'o', 'n']

/-- Index of the first occurrence of `pat` in the list, starting counting
at `i` (the search position loop of `re.search` for a literal pattern). -/
def findSubAux (pat : List Char) : List Char → Nat → Option Nat
  | [], i => if pat.isEmpty then some i else none
  | l@(_ :: t), i => if pat.isPrefixOf l then some i else findSubAux pat t (i + 1)

/-- The part of a fence match after the opening fence and optional `json`
tag: skip the maximal whitespace run (`\s*`, making `\n?` empty), then let
the lazy group run to the first closing fence, handing one directly
preceding newline to the second `\n?`. -/
def fenceBody (r : List Char) : Option (List Char) :=
  let body := r.dropWhile isPySpace
  match findSubAux fenceMark body 0 with
  | some m =>
      some (body.take (if m ≠ 0 ∧ body.get? (m - 1) = some '\n' then m - 1 else m))
  | none => none

/-- One match attempt of `_JSON_FENCE_RE` at a fixed start position: the
opening fence, then the `(?:json)?` alternative with the tag first. -/
def fenceAttempt (l : List Char) : Option (List Char) :=
  if fenceMark.isPrefixOf l then
    let r1 := l.drop 3
    if jsonMark.isPrefixOf r1 then
      match fenceBody (r1.drop 4) with
      | some g => some g
      | none => fenceBody r1
    else fenceBody r1
  else none

/-- `_JSON_FENCE_RE.search`: try each start position left to right and
return the captured group of the first successful attempt. -/
def jsonFenceSearch : List Char → Option (List Char)
  | [] => none
  | l@(_ :: t) =>
    match fenceAttempt l with
    | some g => some g
    | none => jsonFenceSearch t

/-- Everything up to and including the last `}` of the list
(the greedy `.*\}` tail of `_JSON_OBJECT_RE`); `[]` when there is no `}`. -/
def takeToLastRBrace (l : List Char) : List Char :=
  (l.reverse.dropWhile (· != '\x7d')).reverse

/-- `_JSON_OBJECT_RE.search` (`\{.*\}` with `re.DOTALL`): the span from the
leftmost `{` that is followed by some `}`, greedily through the last `}`. -/
def jsonObjectSearch : List Char → Option (List Char)
  | [] => none
  | c :: t =>
    if c == '\x7b' && t.contains '\x7d' then some (c :: takeToLastRBrace t)
    else jsonObjectSearch t

/-- `_extract_json` from src/llm/actions_parser.py lines 65-88. -/
def _extract_json (text : String) : Option String :=
  match jsonFenceSearch text.data with
  | some g => some (String.mk (pyStrip g))
  | none =>
  match jsonObjectSearch text.data with
  | some m => some (String.mk m)
  | none =>
    let stripped := pyStripS text
    if startsWithLBrace stripped then some stripped else none

/-- `FALLBACK_REPLY` from src/llm/actions_parser.py lines 33-36, exactly as
the interpreter decodes the source file (the file holds doubly encoded text;
the resulting Python string has 172 code points). -/
def FALLBACK_REPLY : String := "Ð˜Ð·Ð²Ð¸Ð½Ð¸Ñ‚Ðµ, Ð¿Ñ€Ð¾Ð¸Ð·Ð¾ÑˆÐ»Ð° Ñ‚ÐµÑ…Ð½Ð¸Ñ‡ÐµÑÐºÐ°Ñ Ð¾ÑˆÐ¸Ð±ÐºÐ°. ÐŸÐ¾Ð¶Ð°Ð»ÑƒÐ¹ÑÑ‚Ð°, Ð¿Ð¾Ð¿Ñ€Ð¾Ð±ÑƒÐ¹Ñ‚Ðµ Ð¿ÐµÑ€ÐµÑ„Ð¾Ñ€Ð¼ÑƒÐ»Ð¸Ñ€Ð¾Ð²Ð°Ñ‚ÑŒ Ð²Ð°Ñˆ Ð²Ð¾Ð¿Ñ€Ð¾Ñ. ðŸ™"

/-- `_fallback` from src/llm/actions_parser.py lines 91-111. -/
def _fallback (raw_output : String) : ActionsJson :=
  let clean := pyStripS raw_output
  let reply :=
    if clean ≠ "" ∧ clean.length > 10 ∧ ¬ startsWithLBrace clean then
      pySlice clean 2000
    else
      FALLBACK_REPLY
  { reply_text := reply,
    actions := some { safety_flags := some {} } }

/-- `parse_actions` from src/llm/actions_parser.py lines 39-62.  The
library-call chain `json.loads` + `ActionsJson.model_validate` is the
abstract parameter `validate`; every exception it can raise is caught by the
source's `except` clauses, i.e. modelled as `none`. -/
def parse_actions (validate : String → Option ActionsJson)
    (raw_output : String) : ActionsJson :=
  match _extract_json raw_output with
  | none => _fallback raw_output
  | some json_str =>
    match validate json_str with
    | some result => result
    | none => _fallback raw_output

/-! ### The extraction step as the spec words it

For comparing `_extract_json` with the specified behaviour
("else locate the first balanced `{...}` span"). -/

/-- Modelled from the spec: consume a balanced `{...}` body given the list
after an opening `{` and the current nesting depth. -/
def scanBalanced : List Char → Nat → Option (List Char)
  | [], _ => none
  | c :: t, d =>
    if c == '\x7d' then
      if d = 1 then some [c]
      else (scanBalanced t (d - 1)).map (c :: ·)
    else if c == '\x7b' then (scanBalanced t (d + 1)).map (c :: ·)
    else (scanBalanced t d).map (c :: ·)

/-- Modelled from the spec: the first balanced `{...}` span of the text. -/
def firstBalancedSpan : List Char → Option (List Char)
  | [] => none
  | c :: t =>
    if c == '\x7b' then
      match scanBalanced t 1 with
      | some sp => some (c :: sp)
      | none => firstBalancedSpan t
    else firstBalancedSpan t

/-- Modelled from the spec: the extraction step as the spec describes it —
strategies in order, with strategy (2) the first *balanced* span. -/
def extractJsonSpec (text : String) : Option String :=
  match jsonFenceSearch text.data with
  | some g => some (String.mk (pyStrip g))
  | none =>
  match firstBalancedSpan text.data with
  | some m => some (String.mk m)
  | none =>
    let stripped := pyStripS text
    if startsWithLBrace stripped then some stripped else none

/-- Declarative reading of `_JSON_OBJECT_RE`: the span from the first `{`
of the text through the last `}`, when the first `{` has a `}` after it. -/
def firstBraceToLastSpan (l : List Char) : Option (List Char) :=
  match l.dropWhile (· != '\x7b') with
  | [] => none
  | c :: t => if t.contains '\x7d' then some (c :: takeToLastRBrace t) else none

/-! ## src/db/postgres.py — outbox table and idempotency ledger

Tables are modelled as lists of rows; SQL `UPDATE ... WHERE id = $1` maps
over the list touching the matching rows, `now()` timestamps are abstract
`Nat` ticks passed in by the caller. -/

/-- A row of `outbound_events` (the OutboxEntry; see the INSERT in
`insert_outbound_event` and the columns read back by `get_pending_outbox`).
`reply_markup` and the foreign key `inbound_event_id` play no role in any
claim and are elided. -/
structure OutboundEvent where
  id : Nat
  telegram_chat_id : Int
  reply_text : String
  status : String
  attempts : Nat
  error_message : Option String := none
  last_attempt_at : Option Nat := none
  created_at : Nat
deriving DecidableEq, Repr

/-- `insert_outbound_event` from src/db/postgres.py lines 109-131: a new row
with `status='pending'` (and zero `attempts`, the column default). -/
def insert_outbound_event (table : List OutboundEvent) (id : Nat) (chat_id : Int)
    (reply_text : String) (now : Nat) : List OutboundEvent :=
  table ++ [{ id := id, telegram_chat_id := chat_id, reply_text := reply_text,
              status := "pending", attempts := 0, created_at := now }]

/-- `mark_outbound_sent` from src/db/postgres.py lines 134-144. -/
def mark_outbound_sent (table : List OutboundEvent) (event_id : Nat) (now : Nat) :
    List OutboundEvent :=
  table.map fun e =>
    if e.id = event_id then
      { e with status := "sent", last_attempt_at := some now, attempts := e.attempts + 1 }
    else e

/-- `mark_outbound_failed` from src/db/postgres.py lines 147-159. -/
def mark_outbound_failed (table : List OutboundEvent) (event_id : Nat) (error : String)
    (now : Nat) : List OutboundEvent :=
  table.map fun e =>
    if e.id = event_id then
      { e with status := "failed", last_attempt_at := some now,
               attempts := e.attempts + 1, error_message := some error }
    else e

/-- Insert into a list sorted by ascending `created_at` (for `ORDER BY
created_at ASC`). -/
def insertByCreated (e : OutboundEvent) : List OutboundEvent → List OutboundEvent
  | [] => [e]
  | x :: xs =>
    if e.created_at ≤ x.created_at then e :: x :: xs else x :: insertByCreated e xs

/-- Sort by ascending `created_at`. -/
def sortByCreated : List OutboundEvent → List OutboundEvent
  | [] => []
  | x :: xs => insertByCreated x (sortByCreated xs)

/-- `get_pending_outbox` from src/db/postgres.py lines 249-272:
`WHERE status = 'pending' AND attempts < 5 ORDER BY created_at ASC LIMIT $1`. -/
def get_pending_outbox (table : List OutboundEvent) (limit : Nat := 10) :
    List OutboundEvent :=
  (sortByCreated (table.filter fun e =>
    e.status == "pending" && decide (e.attempts < 5))).take limit

/-- A row of `processed_updates` (the idempotency ledger; columns written by
`mark_update_received`). -/
structure ProcessedUpdate where
  telegram_update_id : Nat
  status : String
  worker_id : String := "webhook"
deriving DecidableEq, Repr

/-- `check_processed_update` from src/db/postgres.py lines 55-65:
`SELECT 1 ... WHERE telegram_update_id = $1` is non-empty. -/
def check_processed_update (table : List ProcessedUpdate) (update_id : Nat) : Bool :=
  table.any (·.telegram_update_id == update_id)

/-- `mark_update_received` from src/db/postgres.py lines 68-79:
`INSERT ... ON CONFLICT (telegram_update_id) DO NOTHING`. -/
def mark_update_received (table : List ProcessedUpdate) (update_id : Nat)
    (worker_id : String := "webhook") : List ProcessedUpdate :=
  if table.any (·.telegram_update_id == update_id) then table
  else table ++ [{ telegram_update_id := update_id, status := "received",
                   worker_id := worker_id }]

/-- `mark_update_completed` from src/db/postgres.py lines 162-172: an
unconditional `UPDATE ... SET status = 'completed' WHERE telegram_update_id
= $1` — there is no guard on the previous status. -/
def mark_update_completed (table : List ProcessedUpdate) (update_id : Nat) :
    List ProcessedUpdate :=
  table.map fun r =>
    if r.telegram_update_id = update_id then { r with status := "completed" } else r

/-- `mark_update_failed` from src/db/postgres.py lines 175-185: likewise
unconditional. -/
def mark_update_failed (table : List ProcessedUpdate) (update_id : Nat) :
    List ProcessedUpdate :=
  table.map fun r =>
    if r.telegram_update_id = update_id then { r with status := "failed" } else r

/-- Current status of an update's ledger row. -/
def statusOf (table : List ProcessedUpdate) (update_id : Nat) : Option String :=
  (table.find? (·.telegram_update_id == update_id)).map (·.status)

/-! ## src/queue/worker.py — the Job Processor -/

/-- `Job` from src/models.py lines 95-103.  `raw_update` (an arbitrary JSON
dict) and `received_at` are opaque payload carried through unchanged; they
are modelled by the `raw_update` string.  `attempt` defaults to `0` and — as
proved below — is never incremented anywhere in the repository. -/
structure Job where
  update_id : Nat
  chat_id : Int
  user_id : Int
  text : String
  raw_update : String := ""
  attempt : Nat := 0
deriving DecidableEq, Repr

/-- `enqueue_job` from src/db/redis_client.py lines 62-66: `LPUSH` pushes to
the left of the Redis list; `dequeue_job` uses `BRPOP`, so the right end is
the FIFO head and the left end is the tail where new jobs are appended. -/
def enqueue_job (queue : List Job) (job : Job) : List Job :=
  job :: queue

/-- `dequeue_job` from src/db/redis_client.py lines 69-81 (`BRPOP`): the
rightmost element, if any, together with the remaining queue. -/
def dequeue_job (queue : List Job) : Option Job × List Job :=
  (queue.getLast?, queue.dropLast)

/-- The observable actions of one `process_job` run (worker.py 72-107), in
program order. -/
inductive WorkerEffect
  | acquireLock (user_id : Int) (ttl : Nat)
  | sleepSeconds (n : Nat)
  | enqueueJob (job : Job)
  | runProcessMessage
  | sendMessage (chat_id : Int) (text : String)
  | markUpdateFailed (update_id : Nat)
  | releaseLock (user_id : Int)
deriving DecidableEq, Repr

/-- The canned error reply sent from `process_job`'s `except` branch
(worker.py lines 96-99). -/
def ERROR_REPLY : String :=
  "Извините, произошла ошибка. Попробуйте ещё раз через минуту. 🙏"

/-- `process_job` from src/queue/worker.py lines 72-107, as the sequence of
effects it performs together with its outcome.

* `lock_acquired` is the result of `acquire_user_lock` (SET NX EX); on
  contention the job dict is re-enqueued as-is after a 1s sleep and the
  function returns — note the source re-enqueues `job_data` itself, not a
  modified copy.
* `body` is the outcome of `_process_message` (`.ok` or an uncaught
  exception).  On an exception, the `except` branch sends `ERROR_REPLY`
  (its own failure is swallowed by the inner `try`/`except ... pass`,
  hence the unused `_send_reply_outcome`) and then calls
  `mark_update_failed`, whose own failure (`mark_failed`) propagates.
* The `finally` block always appends `releaseLock` before the function
  returns or re-raises. -/
def process_job (job : Job) (lock_acquired : Bool)
    (body : Except String Unit) (_send_reply_outcome : Except String Unit)
    (mark_failed : Except String Unit) : List WorkerEffect × Except String Unit :=
  if !lock_acquired then
    ([.acquireLock job.user_id 120, .sleepSeconds 1, .enqueueJob job], .ok ())
  else
    let tryPart : List WorkerEffect × Except String Unit :=
      match body with
      | .ok _ => ([.runProcessMessage], .ok ())
      | .error _ =>
        ([.runProcessMessage, .sendMessage job.chat_id ERROR_REPLY,
          .markUpdateFailed job.update_id],
         match mark_failed with
         | .ok _ => .ok ()
         | .error m => .error m)
    (.acquireLock job.user_id 120 :: tryPart.1 ++ [.releaseLock job.user_id],
     tryPart.2)

/-- Fold the queue effects of a trace over a queue (only `enqueueJob`
touches the queue). -/
def applyQueueEffects : List Job → List WorkerEffect → List Job
  | q, [] => q
  | q, .enqueueJob j :: rest => applyQueueEffects (enqueue_job q j) rest
  | q, _ :: rest => applyQueueEffects q rest

/-! ### Ledger operations performed by `_process_message` -/

/-- The idempotency-ledger writes a worker can issue. -/
inductive LedgerOp
  | markCompleted (update_id : Nat)
  | markFailed (update_id : Nat)
deriving DecidableEq, Repr

/-- Apply one ledger write. -/
def applyLedgerOp (table : List ProcessedUpdate) : LedgerOp → List ProcessedUpdate
  | .markCompleted u => mark_update_completed table u
  | .markFailed u => mark_update_failed table u

/-- Apply a sequence of ledger writes. -/
def applyLedgerOps : List ProcessedUpdate → List LedgerOp → List ProcessedUpdate
  | t, [] => t
  | t, op :: rest => applyLedgerOps (applyLedgerOp t op) rest

/-- `_send_and_track` (worker.py 266-278) unconditionally ends with
`mark_update_completed`, whatever the send result was. -/
def sendAndTrackLedgerOps (update_id : Nat) : List LedgerOp :=
  [.markCompleted update_id]

/-- The branch `_process_message` (worker.py 109-263) takes through its
early returns; `placeholderShown` records whether the optional placeholder
message was sent (worker.py 192-196). -/
inductive MsgPath
  | helpCommand
  | safetyBlocked
  | userBlocked
  | startCommand
  | profileCommand
  | llmFailed (placeholderShown : Bool)
  | success (placeholderShown : Bool)
deriving DecidableEq, Repr

/-- The idempotency-ledger writes `_process_message` issues on each branch:

* `help`, safety short-circuit, `/start`, `/profile`: one `_send_and_track`.
* blocked user: none.
* `call_llm` raised (worker.py 210-219): the fallback reply goes through
  `edit_message` when a placeholder exists (no ledger write) and through
  `_send_and_track` otherwise (which marks the update **completed**), and
  then `mark_update_failed` runs.
* success (worker.py 222-263): reply via `edit_message` + outbox bookkeeping
  (placeholder) or `_send_and_track` (no placeholder), then
  `mark_update_completed`. -/
def processMessageLedgerOps (update_id : Nat) : MsgPath → List LedgerOp
  | .helpCommand => sendAndTrackLedgerOps update_id
  | .safetyBlocked => sendAndTrackLedgerOps update_id
  | .userBlocked => []
  | .startCommand => sendAndTrackLedgerOps update_id
  | .profileCommand => sendAndTrackLedgerOps update_id
  | .llmFailed ph =>
      (if ph then [] else sendAndTrackLedgerOps update_id) ++ [.markFailed update_id]
  | .success ph =>
      (if ph then [] else sendAndTrackLedgerOps update_id) ++ [.markCompleted update_id]

/-- The ledger status of `update_id` before the first write and after each
successive write of `ops`. -/
def statusTrace : List ProcessedUpdate → Nat → List LedgerOp → List (Option String)
  | t, u, [] => [statusOf t u]
  | t, u, op :: rest => statusOf t u :: statusTrace (applyLedgerOp t op) u rest

/-! ## src/llm/actions_applier.py and the worker's state writes -/

/-- The `mode` that `apply_actions` (src/llm/actions_applier.py lines 47-60)
writes to `conversation_state`, if its `state_patch` branch runs:
`new_mode = actions.state_patch.mode or state.mode` — there is **no**
`is_valid_transition` check here.  (Python `or` falls through on `None` and
on the empty string.) -/
def applyActionsModeWrite (actions : Option Actions) (state_mode : String) :
    Option String :=
  match actions with
  | none => none
  | some a =>
    match a.state_patch with
    | none => none
    | some sp =>
      some (match sp.mode with
            | some m => if m = "" then state_mode else m
            | none => state_mode)

/-- The `mode` the worker's final `upsert_conversation_state` stores
(worker.py lines 230-246): the proposal is applied only when
`sp.mode and fsm.is_valid_transition(state.mode, sp.mode)`. -/
def workerFinalMode (state_mode : String) (actions : Option Actions) : String :=
  match actions with
  | none => state_mode
  | some a =>
    match a.state_patch with
    | none => state_mode
    | some sp =>
      match sp.mode with
      | none => state_mode
      | some m =>
        if m ≠ "" ∧ is_valid_transition state_mode m then m else state_mode

/-- The successive `mode` values written to the conversation-state store
during the post-LLM region of `_process_message`: first the upsert inside
`apply_actions` (worker.py line 226 → actions_applier.py lines 52-59), then
the history upsert (worker.py lines 239-246). -/
def modeWrites (state_mode : String) (actions : Option Actions) : List String :=
  (match applyActionsModeWrite actions state_mode with
   | some m => [m]
   | none => []) ++ [workerFinalMode state_mode actions]

/-! ## src/bot/webhook.py — ingestion -/

/-- The fields `handle_webhook` reads off a successfully validated
`TelegramUpdate` (`update_id`, `effective_chat_id`, `effective_user_id`,
`effective_text`). -/
structure ParsedUpdate where
  update_id : Nat
  chat_id : Option Int
  user_id : Option Int
  text : Option String
deriving DecidableEq, Repr

/-- The observable actions of one `handle_webhook` run. -/
inductive WebhookEffect
  | markReceived (update_id : Nat)
  | insertInbound (update_id : Nat)
  | enqueueJob (job : Job)
deriving DecidableEq, Repr

/-- An HTTP response of the webhook server; every return statement of
`handle_webhook` is `web.json_response({"ok": True})`, i.e. status 200. -/
structure HttpResponse where
  status : Nat
  ok : Bool
deriving DecidableEq, Repr

/-- `handle_webhook` from src/bot/webhook.py lines 44-112.  `secret_ok` is
the header check; `body = none` covers both a JSON body that fails to parse
and one that `TelegramUpdate.model_validate` rejects (both `except`
branches return 200 with no effects). -/
def handle_webhook (secret_ok : Bool) (body : Option ParsedUpdate)
    (processed_updates : List ProcessedUpdate) : HttpResponse × List WebhookEffect :=
  if !secret_ok then (⟨200, true⟩, [])
  else
    match body with
    | none => (⟨200, true⟩, [])
    | some u =>
      match u.chat_id, u.user_id with
      | some chat_id, some user_id =>
        if check_processed_update processed_updates u.update_id then
          (⟨200, true⟩, [])
        else
          (⟨200, true⟩,
           [.markReceived u.update_id, .insertInbound u.update_id,
            .enqueueJob { update_id := u.update_id, chat_id := chat_id,
                          user_id := user_id, text := u.text.getD "" }])
      | _, _ => (⟨200, true⟩, [])

/-! ## Concrete instances used in the theorems below -/

/-- A fresh job with the default `attempt = 0`. -/
def c5Job : Job :=
  { update_id := 1, chat_id := 2, user_id := 3, text := "hi" }

/-- An outbox table holding one fresh pending entry. -/
def c1Table : List OutboundEvent :=
  [{ id := 1, telegram_chat_id := 42, reply_text := "hi",
     status := "pending", attempts := 0, created_at := 0 }]

/-- A ledger holding one update in status `received`. -/
def c6Ledger : List ProcessedUpdate :=
  [{ telegram_update_id := 7, status := "received" }]

/-- An LLM response proposing the mode `coaching`. -/
def c3Actions : Option Actions :=
  some { state_patch := some { mode := some "coaching" } }

/-- A 20-entry conversation history. -/
def c9History : List HistMsg :=
  List.replicate 20 ⟨"user", "m", "t"⟩

/-! ## Helper lemmas -/

/-- `jsonObjectSearch` finds nothing when the text has no closing brace. -/
lemma jsonObjectSearch_none_of_not_mem (l : List Char)
    (h : '\x7d' ∉ l) : jsonObjectSearch l = none := by
  induction l with
  | nil => rfl
  | cons c t ih =>
    have h2 : '\x7d' ∉ t := fun hm => h (List.mem_cons_of_mem _ hm)
    simp [jsonObjectSearch, h2]
    exact ih h2

/-- The scan implementing `_JSON_OBJECT_RE` agrees with its declarative
reading: the span from the first `\x7b` through the last `\x7d`. -/
lemma jsonObjectSearch_eq_firstBraceToLastSpan (l : List Char) :
    jsonObjectSearch l = firstBraceToLastSpan l := by
  induction l with
  | nil => rfl
  | cons c t ih =>
    by_cases hc : c = '\x7b'
    · subst hc
      by_cases ht : '\x7d' ∈ t
      · simp [jsonObjectSearch, firstBraceToLastSpan, ht]
      · simp [jsonObjectSearch, firstBraceToLastSpan, ht,
          jsonObjectSearch_none_of_not_mem t ht]
    · simp [jsonObjectSearch, firstBraceToLastSpan, hc, ih]

/-- `reply_text` of `_fallback` stays within the schema bounds `[1, 4000]`. -/
lemma fallback_reply_text_bounds (raw : String) :
    1 ≤ (_fallback raw).reply_text.length ∧ (_fallback raw).reply_text.length ≤ 4000 := by
  have heq : (_fallback raw).reply_text =
      if pyStripS raw ≠ "" ∧ (pyStripS raw).length > 10 ∧
          ¬ startsWithLBrace (pyStripS raw)
      then pySlice (pyStripS raw) 2000 else FALLBACK_REPLY := rfl
  by_cases h : pyStripS raw ≠ "" ∧ (pyStripS raw).length > 10 ∧
      ¬ startsWithLBrace (pyStripS raw)
  · rw [heq, if_pos h]
    have hlen : (pySlice (pyStripS raw) 2000).length
        = min 2000 (pyStripS raw).data.length := by
      show ((pyStripS raw).data.take 2000).length = _
      exact List.length_take _ _
    have h10 : 10 < (pyStripS raw).data.length := h.2.1
    rw [hlen]
    omega
  · rw [heq, if_neg h]
    decide

/-! ## Claim theorems -/

/-- C2: for every execution of `process_job` in which the per-user lock is
acquired, the trace of effects ends with `releaseLock` for that user —
whatever the outcome of `_process_message`, of the error-reply send, and of
`mark_update_failed`; in particular `release_user_lock` is invoked before
`process_job` returns on every such path. -/
theorem process_job_releases_lock (job : Job)
    (body send_outcome mark_failed : Except String Unit) :
    ((process_job job true body send_outcome mark_failed).1).getLast?
      = some (.releaseLock job.user_id) := by
  cases body <;> simp [process_job]

/-- C5 counterexample: a job whose lock acquisition fails is re-enqueued
with `attempt` still `0`, not incremented to `1` as the claim states — the
source re-enqueues the original `job_data` dict unchanged. -/
theorem requeue_does_not_increment_attempt :
    (process_job c5Job false (.ok ()) (.ok ()) (.ok ())).1
      = [.acquireLock 3 120, .sleepSeconds 1, .enqueueJob c5Job] ∧
    c5Job.attempt = 0 ∧
    WorkerEffect.enqueueJob { c5Job with attempt := c5Job.attempt + 1 }
      ∉ (process_job c5Job false (.ok ()) (.ok ()) (.ok ())).1 := by
  decide

/-- C5 amended: on lock contention the job is re-enqueued to the queue tail
(the `LPUSH` side, `BRPOP` serving the opposite end) with every field
unchanged — `attempt` included — and this is the only job the contention
path enqueues. -/
theorem requeue_preserves_job (job : Job) (q : List Job)
    (body send_outcome mark_failed : Except String Unit) :
    applyQueueEffects q (process_job job false body send_outcome mark_failed).1
      = job :: q ∧
    ∀ j, WorkerEffect.enqueueJob j
        ∈ (process_job job false body send_outcome mark_failed).1 → j = job := by
  constructor
  · rfl
  · intro j hj
    have htr : (process_job job false body send_outcome mark_failed).1
        = [.acquireLock job.user_id 120, .sleepSeconds 1, .enqueueJob job] := rfl
    rw [htr] at hj
    simpa using hj

/-- C1 (code bug): a fresh pending outbox entry is selected by
`get_pending_outbox`; after one failed delivery attempt
(`mark_outbound_failed`, leaving `attempts = 1 < 5`) it is excluded from
every subsequent sweep, because the sweep selects `status = 'pending'` only
while the failure handler set `status = 'failed'`. -/
theorem failed_outbox_entry_not_retried :
    get_pending_outbox c1Table 10 = c1Table ∧
    (mark_outbound_failed c1Table 1 "send error" 5).map (fun e => (e.status, e.attempts))
      = [("failed", 1)] ∧
    get_pending_outbox (mark_outbound_failed c1Table 1 "send error" 5) 10 = [] := by
  decide

/-- C6 (code bug): on the `call_llm`-failure path with the placeholder
message disabled, `_process_message` first marks the ledger row `completed`
(inside `_send_and_track`) and then marks it `failed` — the status of an
update moves `received → completed → failed`, regressing after reaching the
terminal status `completed`. -/
theorem ledger_status_regresses_on_llm_failure :
    statusTrace c6Ledger 7 (processMessageLedgerOps 7 (.llmFailed false))
      = [some "received", some "completed", some "failed"] := by
  decide

/-- C4: an inbound update whose `update_id` already has a ledger row makes
`handle_webhook` answer 200/ok with no effects at all: no job enqueued, no
`processed_updates` or `inbound_events` row created. -/
theorem duplicate_update_dropped (secret_ok : Bool) (u : ParsedUpdate)
    (tbl : List ProcessedUpdate)
    (h : check_processed_update tbl u.update_id = true) :
    handle_webhook secret_ok (some u) tbl = (⟨200, true⟩, []) := by
  obtain ⟨uid, hc, hu, ht⟩ := u
  cases secret_ok with
  | false => rfl
  | true =>
    cases hc <;> cases hu <;> simp_all [handle_webhook, check_processed_update]

/-- C4 witness: a concrete duplicate (`update_id = 5` already recorded) is
dropped with a 200 response. -/
theorem duplicate_update_dropped_witness :
    check_processed_update [{ telegram_update_id := 5, status := "received" }] 5
      = true ∧
    handle_webhook true (some ⟨5, some 1, some 2, some "hello"⟩)
        [{ telegram_update_id := 5, status := "received" }] = (⟨200, true⟩, []) :=
  ⟨by decide,
   duplicate_update_dropped true ⟨5, some 1, some 2, some "hello"⟩ _ (by decide)⟩

/-- C3 counterexample: with the conversation in mode `onboarding` and the
LLM proposing the invalid transition to `coaching`, the job's sequence of
conversation-state writes is `["coaching", "onboarding"]` — the invalid
proposed mode *is* written to the store by `apply_actions` (no
`is_valid_transition` check there), before the worker's final upsert
restores the previous mode.  The stored mode is therefore not left
unchanged at every point during processing. -/
theorem invalid_mode_written_transiently :
    is_valid_transition "onboarding" "coaching" = false ∧
    modeWrites "onboarding" c3Actions = ["coaching", "onboarding"] := by
  decide

/-- C3 amended: the proposed mode is written unvalidated by `apply_actions`
first, and only the worker's **final** conversation-state write applies the
`is_valid_transition` filter — the mode stored at the end of the job is the
proposal when the transition is valid and the previous mode otherwise. -/
theorem invalid_mode_dropped_by_final_write (state_mode m : String) (h : m ≠ "") :
    modeWrites state_mode (some { state_patch := some { mode := some m } })
      = [m, if is_valid_transition state_mode m then m else state_mode] := by
  simp [modeWrites, applyActionsModeWrite, workerFinalMode, h]

/-- C3 amended, witness: the concrete invalid proposal
`onboarding → coaching`. -/
theorem invalid_mode_dropped_by_final_write_witness :
    ("coaching" ≠ "") ∧
    modeWrites "onboarding" (some { state_patch := some { mode := some "coaching" } })
      = ["coaching",
         if is_valid_transition "onboarding" "coaching" then "coaching"
         else "onboarding"] :=
  ⟨by decide, invalid_mode_dropped_by_final_write "onboarding" "coaching" (by decide)⟩

/-- C7: whenever extraction finds no JSON candidate or the
`json.loads`/schema-validation step fails, `parse_actions` returns the
fallback result; its `reply_text` is the trimmed raw text truncated to 2000
characters when that text is non-empty, longer than 10 characters and does
not start with a brace, and the fixed generic apology otherwise — and in
either case the result carries no `profile_patch` and no `state_patch`. -/
theorem parse_failure_falls_back (validate : String → Option ActionsJson)
    (raw : String)
    (h : _extract_json raw = none ∨
      ∀ s, _extract_json raw = some s → validate s = none) :
    parse_actions validate raw = _fallback raw ∧
    (_fallback raw).reply_text =
      (if pyStripS raw ≠ "" ∧ (pyStripS raw).length > 10 ∧
          ¬ startsWithLBrace (pyStripS raw)
       then pySlice (pyStripS raw) 2000 else FALLBACK_REPLY) ∧
    ∀ a, (_fallback raw).actions = some a →
      a.profile_patch = none ∧ a.state_patch = none := by
  refine ⟨?_, rfl, ?_⟩
  · cases hx : _extract_json raw with
    | none => simp [parse_actions, hx]
    | some s =>
      rcases h with h | h
      · rw [hx] at h
        exact absurd h (by simp)
      · simp [parse_actions, hx, h s hx]
  · intro a ha
    have hact : (_fallback raw).actions = some { safety_flags := some {} } := rfl
    rw [hact] at ha
    cases ha
    exact ⟨rfl, rfl⟩

/-- C7 witness: the spec's own scenario, the malformed executor output
`"\x7bnot json"` (trimmed text starts with a brace, so the apology is
used), with a validator that rejects everything. -/
theorem parse_failure_falls_back_witness :
    (_extract_json "\x7bnot json" = none ∨
      ∀ s, _extract_json "\x7bnot json" = some s →
        (fun (_ : String) => (none : Option ActionsJson)) s = none) ∧
    parse_actions (fun _ => none) "\x7bnot json" = _fallback "\x7bnot json" ∧
    (_fallback "\x7bnot json").reply_text = FALLBACK_REPLY :=
  ⟨Or.inr fun _ _ => rfl,
   (parse_failure_falls_back (fun _ => none) "\x7bnot json"
      (Or.inr fun _ _ => rfl)).1,
   by decide⟩

/-- C8 counterexample: on `"\x7ba\x7d and \x7bb\x7d"` the code's strategy
(2) returns the greedy span from the first `\x7b` to the last `\x7d`
(the whole text), while the claim's "first balanced span" strategy would
return `"\x7ba\x7d"` — `_extract_json` does not implement the claimed
strategy. -/
theorem extract_json_not_first_balanced_span :
    _extract_json "\x7ba\x7d and \x7bb\x7d" = some "\x7ba\x7d and \x7bb\x7d" ∧
    extractJsonSpec "\x7ba\x7d and \x7bb\x7d" = some "\x7ba\x7d" ∧
    _extract_json "\x7ba\x7d and \x7bb\x7d"
      ≠ extractJsonSpec "\x7ba\x7d and \x7bb\x7d" := by
  decide

/-- C8 amended: `_extract_json` tries, in order, (1) the fenced code block
content (stripped) if the fence regex matches, (2) else the span from the
first `\x7b` of the text through the last `\x7d` (the greedy
`_JSON_OBJECT_RE` match — not the first balanced span), (3) else the whole
trimmed text when it starts with `\x7b`; otherwise no candidate. -/
theorem extract_json_strategy_order (text : String) :
    _extract_json text =
      match jsonFenceSearch text.data with
      | some g => some (String.mk (pyStrip g))
      | none =>
        match firstBraceToLastSpan text.data with
        | some m => some (String.mk m)
        | none =>
          if startsWithLBrace (pyStripS text) then some (pyStripS text)
          else none := by
  unfold _extract_json
  rw [jsonObjectSearch_eq_firstBraceToLastSpan]

/-- C9: `update_last_messages` appends the user message and the assistant
reply truncated to 500 characters, then keeps exactly the most recent
`min (previous + 2) max_messages` entries, dropping the oldest first, with
the new assistant message last (for any `max_messages ≥ 1`). -/
theorem update_last_messages_spec (last : List HistMsg)
    (user reply ts1 ts2 : String) (max_messages : Nat) (h : 1 ≤ max_messages) :
    update_last_messages last user reply ts1 ts2 max_messages
      = (last ++ [(⟨"user", user, ts1⟩ : HistMsg),
          ⟨"assistant", pySlice reply 500, ts2⟩]).drop
          (last.length + 2 - min (last.length + 2) max_messages) ∧
    (update_last_messages last user reply ts1 ts2 max_messages).length
      = min (last.length + 2) max_messages ∧
    (update_last_messages last user reply ts1 ts2 max_messages).getLast?
      = some ⟨"assistant", pySlice reply 500, ts2⟩ ∧
    (pySlice reply 500).length ≤ 500 := by
  have hmax : max_messages ≠ 0 := by omega
  have h500 : (pySlice reply 500).length ≤ 500 := by
    show (reply.data.take 500).length ≤ 500
    exact List.length_take_le _ _
  have hfl : (last ++ [(⟨"user", user, ts1⟩ : HistMsg),
      ⟨"assistant", pySlice reply 500, ts2⟩]).length = last.length + 2 := by
    simp
  have hassoc : last ++ [(⟨"user", user, ts1⟩ : HistMsg),
        ⟨"assistant", pySlice reply 500, ts2⟩]
      = (last ++ [⟨"user", user, ts1⟩]) ++ [⟨"assistant", pySlice reply 500, ts2⟩] := by
    simp
  by_cases hgt : (last ++ [(⟨"user", user, ts1⟩ : HistMsg),
      ⟨"assistant", pySlice reply 500, ts2⟩]).length > max_messages
  · have hres : update_last_messages last user reply ts1 ts2 max_messages
        = (last ++ [(⟨"user", user, ts1⟩ : HistMsg),
            ⟨"assistant", pySlice reply 500, ts2⟩]).drop
            (last.length + 2 - max_messages) := by
      unfold update_last_messages
      rw [if_pos hgt, if_neg hmax, hfl]
    have hmin : min (last.length + 2) max_messages = max_messages := by
      rw [hfl] at hgt; omega
    refine ⟨?_, ?_, ?_, h500⟩
    · rw [hres, hmin]
    · rw [hres, List.length_drop, hfl]
      omega
    · rw [hres, hassoc, List.drop_append_of_le_length (by simp; omega)]
      exact List.getLast?_concat _
  · have hres : update_last_messages last user reply ts1 ts2 max_messages
        = last ++ [(⟨"user", user, ts1⟩ : HistMsg),
            ⟨"assistant", pySlice reply 500, ts2⟩] := by
      unfold update_last_messages
      rw [if_neg hgt]
    have hmin : min (last.length + 2) max_messages = last.length + 2 := by
      rw [hfl] at hgt; omega
    refine ⟨?_, ?_, ?_, h500⟩
    · rw [hres, hmin]
      simp
    · rw [hres, hfl, hmin]
    · rw [hres, hassoc]
      exact List.getLast?_concat _

/-- C9 witness: appending to a 20-entry history with `max_messages = 10`
yields exactly 10 entries, the new (truncated) assistant message last. -/
theorem update_last_messages_spec_witness :
    1 ≤ 10 ∧
    (update_last_messages c9History "hello" "world" "t1" "t2" 10).length = 10 ∧
    (update_last_messages c9History "hello" "world" "t1" "t2" 10).getLast?
      = some ⟨"assistant", pySlice "world" 500, "t2"⟩ :=
  ⟨by decide,
   ((update_last_messages_spec c9History "hello" "world" "t1" "t2" 10
      (by decide)).2.1).trans (by decide),
   (update_last_messages_spec c9History "hello" "world" "t1" "t2" 10
      (by decide)).2.2.1⟩

/-- C10: `parse_actions` is total by construction (every exception of the
parse/validate step is caught), and for every validator obeying the
`ActionsJson` schema bound (`1 ≤ reply_text length ≤ 4000`, the pydantic
`Field` constraint) and every raw input, the returned `reply_text` length
lies in `[1, 4000]` — on the fallback paths because the truncated plain
text has length in `[11, 2000]` and the fixed apology has length 172. -/
theorem parse_actions_reply_bounded (validate : String → Option ActionsJson)
    (raw : String)
    (hv : ∀ s a, validate s = some a →
      1 ≤ a.reply_text.length ∧ a.reply_text.length ≤ 4000) :
    1 ≤ (parse_actions validate raw).reply_text.length ∧
      (parse_actions validate raw).reply_text.length ≤ 4000 := by
  cases hx : _extract_json raw with
  | none =>
    have hpa : parse_actions validate raw = _fallback raw := by
      simp [parse_actions, hx]
    rw [hpa]
    exact fallback_reply_text_bounds raw
  | some s =>
    cases hv2 : validate s with
    | none =>
      have hpa : parse_actions validate raw = _fallback raw := by
        simp [parse_actions, hx, hv2]
      rw [hpa]
      exact fallback_reply_text_bounds raw
    | some a =>
      have hpa : parse_actions validate raw = a := by
        simp [parse_actions, hx, hv2]
      rw [hpa]
      exact hv s a hv2

/-- C10 witness: the always-rejecting validator (vacuously schema-bounded)
on the empty input. -/
theorem parse_actions_reply_bounded_witness :
    (∀ s a, (fun (_ : String) => (none : Option ActionsJson)) s = some a →
        1 ≤ a.reply_text.length ∧ a.reply_text.length ≤ 4000) ∧
    1 ≤ (parse_actions (fun _ => none) "").reply_text.length ∧
      (parse_actions (fun _ => none) "").reply_text.length ≤ 4000 :=
  And.intro (fun _ _ h => nomatch h)
    (parse_actions_reply_bounded (fun _ => none) "" (fun _ _ h => nomatch h))

end TgKeta
